import Mathlib

/-!
Shallow embedding of `src/signal_message_processor.py` (the streaming
JSON-RPC correlation and ingestion engine): the frame-dispatch loop
(`main`, lines 112-120), `process_incoming_message` (lines 130-205),
`process_attachment_response` (lines 207-256) and
`get_extension_from_content_type` (lines 33-36).

Modelling conventions, mirroring the Python source:

* JSON-RPC frames are modelled structurally with exactly the fields the
  program reads.  An `Option` field is `some v` when the corresponding
  dictionary key is present with a truthy value of the expected shape and
  `none` when the key is absent (or, where the source uses a truthiness
  test — `if not dataMessage`, `if not groupInfo`, `if result:` — when the
  value is falsy, e.g. an empty dict).
* The Python dict `pending_attachments` is an insertion-ordered
  association list with the dict operations: membership test, `pop`, and
  assignment (which silently replaces the value of an existing key,
  keeping its position).
* The sqlite `messages` table is a list of rows; `AUTOINCREMENT` ids are
  modelled by the counter `nextId` (sqlite's `lastrowid` of the insert is
  the id the row was given).  The `attachmentPaths` column stores
  `json.dumps` of a list of strings; since `json.dumps`/`json.loads`
  round-trip lists of strings, the column is modelled as
  `Option (List String)` where `none` is SQL NULL and `some l` is the
  serialized list `l` (so `some []` is the serialized empty list "[]",
  which is a truthy, non-empty string — distinct from NULL).
* `time.time() * 1000` is an external clock: the processing functions
  take `clock : Nat → Nat` and the state counts the calls made so far in
  `tick`; call number `n` returns `clock n` milliseconds.
* `mimetypes.guess_extension` is an external static table (out of core
  scope per the design); it is passed as a parameter
  `ge : String → Option String` (`none` = no known mapping).
* The file system is a map from path to file content, with overwrite on
  rewrite.  `base64.b64decode` is injective on the valid payloads the
  program receives and no property here inspects decoded bytes, so a
  file's content is recorded as the base64 payload it was decoded from.
* Exceptions: `try/except Exception` in both processors is modelled by a
  `..._body` function returning `Except (PyErr × ProcState) ProcState`
  (an error carries the state at the moment of the raise, since the
  side effects performed before the raise persist) and a wrapper that
  catches, logs and returns that state.  Fallible Persistence Store
  operations are fault-injected through a `Faults` record; the INSERT
  together with its commit, the SELECT, and the UPDATE can each be made
  to raise.  Transport writes and base64 decoding are modelled as
  infallible (no claim concerns their failure).
-/

/-- A quote block `dataMessage.quote` (`quote.get('id'/'author'/'text')`). -/
structure Quote where
  id : Option Int
  author : Option String
  text : Option String
  deriving DecidableEq, Repr

/-- The group descriptor `dataMessage.groupInfo`. -/
structure GroupInfo where
  groupId : Option String
  groupName : Option String
  deriving DecidableEq, Repr

/-- One element of `dataMessage.attachments`; the program reads only its id
(`attachment.get('id')`, `None` when absent). -/
structure Attachment where
  id : Option String
  deriving DecidableEq, Repr

/-- The content payload `envelope.dataMessage`. -/
structure DataMessage where
  message : Option String
  attachments : List Attachment
  groupInfo : Option GroupInfo
  quote : Option Quote
  deriving DecidableEq, Repr

/-- The envelope `params.envelope`. -/
structure Envelope where
  source : Option String
  sourceName : Option String
  timestamp : Option Int
  dataMessage : Option DataMessage
  deriving DecidableEq, Repr

/-- The `params` member of a notification frame. -/
structure Params where
  envelope : Option Envelope
  deriving DecidableEq, Repr

/-- The `result` member of a response frame: `result.get('data')` and
`result.get('contentType', 'application/octet-stream')`. -/
structure ResultPayload where
  data : Option String
  contentType : Option String
  deriving DecidableEq, Repr

/-- A decoded JSON-RPC frame, with the four members the program reads:
`method`, `id` (key presence, modelled with its string value), `params`
and `result`. -/
structure Frame where
  method : Option String
  id? : Option String
  params : Option Params
  result : Option ResultPayload
  deriving DecidableEq, Repr

/-- A row of the `messages` table (schema from lines 63-79). -/
structure Row where
  id : Nat
  source : Option String
  sourceName : Option String
  timestamp : Option Int
  message : Option String
  groupId : Option String
  groupName : Option String
  attachmentPaths : Option (List String)
  attachmentDescriptions : String
  processedAt : Option Int
  quoteId : Option Int
  quoteAuthor : Option String
  quoteText : Option String
  deriving DecidableEq, Repr

/-- A value of the `pending_attachments` dict (line 199-202). -/
structure PendingInfo where
  message_id : Nat
  attachment_id : Option String
  deriving DecidableEq, Repr

/-- A `getAttachment` request frame written to the agent's stdin (lines
181-189); `jsonrpc` and `method` are the constants `"2.0"` and
`"getAttachment"` and are left implicit. -/
structure Request where
  attachmentId : Option String
  groupId : Option String
  id : String
  deriving DecidableEq, Repr

/-- Fault injection for the Persistence Store operations: the INSERT of
lines 164-171 (with its commit), the SELECT of line 239 and the UPDATE of
line 244 can each be made to raise. -/
structure Faults where
  insertFails : Bool
  selectFails : Bool
  updateFails : Bool
  deriving DecidableEq, Repr

/-- An exception escaping a store or extraction step inside a `try` block. -/
inductive PyErr where
  | storeError
  | typeError
  deriving DecidableEq, Repr

/-- The mutable state of the processing loop: the correlation table
`pending_attachments`, the `messages` table with its autoincrement
counter, the files written under the attachment directory, the request
frames written to the transport, and the number of clock reads made. -/
structure ProcState where
  pending : List (String × PendingInfo)
  db : List Row
  nextId : Nat
  files : List (String × String)
  sent : List Request
  tick : Nat
  deriving DecidableEq, Repr

/-! ## Python dict operations on association lists -/

/-- `k in d` for a Python dict. -/
def dictContains (k : String) (l : List (String × α)) : Bool :=
  l.any (fun kv => kv.1 == k)

/-- `d.get(k)` / `d[k]` lookup for a Python dict. -/
def dictLookup (k : String) (l : List (String × α)) : Option α :=
  (l.find? (fun kv => kv.1 == k)).map (fun kv => kv.2)

/-- `d[k] = v` for a Python dict: replaces in place when the key is
present (keeping insertion order), otherwise appends. -/
def dictInsert (k : String) (v : α) (l : List (String × α)) : List (String × α) :=
  if dictContains k l then l.map (fun kv => if kv.1 == k then (k, v) else kv)
  else l ++ [(k, v)]

/-- `d.pop(k)` for a Python dict (the removal part; keys of a dict are
unique, so filtering every occurrence agrees with removing the entry). -/
def dictErase (k : String) (l : List (String × α)) : List (String × α) :=
  l.filter (fun kv => kv.1 != k)

/-- The keys of the table, in insertion order. -/
def dictKeys (l : List (String × α)) : List String :=
  l.map (fun kv => kv.1)

/-! ## Helpers shared by the processors -/

/-- Python `str` applied to an optional string (`str(None) = "None"`);
used in building request identifiers (line 180). -/
def pyStr : Option String → String
  | none => "None"
  | some s => s

/-- Python truthiness of `message_text` (line 144): `None` and the empty
string are falsy. -/
def strFalsy : Option String → Bool
  | none => true
  | some t => t.isEmpty

/-- `message.get('params', {}).get('envelope', {})` (line 132): a missing
`params` or `envelope` behaves as an empty dict, i.e. an envelope whose
every lookup returns `None`. -/
def envOf (f : Frame) : Envelope :=
  (f.params.bind Params.envelope).getD ⟨none, none, none, none⟩

/-- `os.path.join(attachment_dir, file_name)` for a directory with no
trailing separator and a relative file name (the case the program
produces). -/
def pathJoin (dir file_name : String) : String :=
  dir ++ "/" ++ file_name

/-- `get_extension_from_content_type` (lines 33-36): the guessed
extension, or `''` when the table knows no mapping (`extension if
extension else ''`). -/
def get_extension_from_content_type (ge : String → Option String) (content_type : String) : String :=
  match ge content_type with
  | none => ""
  | some extension => extension

/-- The file-name derivation of lines 226-230: the attachment id verbatim
when it already contains a `.`, otherwise the id with the guessed
extension appended.  Python's `'.' in attachment_id` is, for a
single-character needle, membership of that character among the
string's characters. -/
def derive_file_name (ge : String → Option String) (attachment_id content_type : String) : String :=
  if attachment_id.data.contains '.' then attachment_id
  else attachment_id ++ get_extension_from_content_type ge content_type

/-! ## Message ingestion (`process_incoming_message`, lines 130-205) -/

/-- The attachment loop of lines 177-202: for each attachment in order,
read the clock, build the request id `str(int(time.time()*1000)) +
str(attachment_id)`, write the `getAttachment` frame to the transport,
and register the pending entry under the request id. -/
def sendRequests (clock : Nat → Nat) (groupId : Option String) (message_id : Nat) :
    List Attachment → ProcState → ProcState
  | [], s => s
  | attachment :: rest, s =>
    let t := clock s.tick
    let request_id := toString t ++ pyStr attachment.id
    let req : Request := { attachmentId := attachment.id, groupId := groupId, id := request_id }
    let s' : ProcState :=
      { s with
        sent := s.sent ++ [req]
        pending := dictInsert request_id ⟨message_id, attachment.id⟩ s.pending
        tick := s.tick + 1 }
    sendRequests clock groupId message_id rest s'

/-- The `try` block of `process_incoming_message` (lines 131-202); an
error carries the state at the raise point. -/
def process_incoming_message_body (fts : Faults) (clock : Nat → Nat) (message : Frame)
    (s : ProcState) : Except (PyErr × ProcState) ProcState :=
  let envelope := envOf message
  match envelope.dataMessage with
  | none => .ok s
  | some dataMessage =>
    match dataMessage.groupInfo with
    | none => .ok s
    | some groupInfo =>
      let message_text := dataMessage.message
      let attachments := dataMessage.attachments
      if strFalsy message_text && attachments.isEmpty then .ok s
      else if fts.insertFails then .error (.storeError, s)
      else
        let row : Row :=
          { id := s.nextId
            source := envelope.source
            sourceName := envelope.sourceName
            timestamp := envelope.timestamp
            message := message_text
            groupId := groupInfo.groupId
            groupName := groupInfo.groupName
            attachmentPaths := some []
            attachmentDescriptions := ""
            processedAt := none
            quoteId := dataMessage.quote.bind Quote.id
            quoteAuthor := dataMessage.quote.bind Quote.author
            quoteText := dataMessage.quote.bind Quote.text }
        let message_id := s.nextId
        let s' : ProcState := { s with db := s.db ++ [row], nextId := s.nextId + 1 }
        .ok (sendRequests clock groupInfo.groupId message_id attachments s')

/-- `process_incoming_message`: the body with its `except Exception`
handler (lines 204-205), which logs and returns normally. -/
def process_incoming_message (fts : Faults) (clock : Nat → Nat) (message : Frame)
    (s : ProcState) : ProcState :=
  match process_incoming_message_body fts clock message s with
  | .ok s' => s'
  | .error (_, s') => s'

/-! ## Attachment resolution (`process_attachment_response`, lines 207-256) -/

/-- `cursor.execute('SELECT ... WHERE id=?')` followed by `fetchone`. -/
def dbFind (message_id : Nat) (db : List Row) : Option Row :=
  db.find? (fun r => r.id == message_id)

/-- `json.loads(row[0]) if row[0] else []` (line 242): NULL loads as the
empty list, a serialized list (always a truthy string) as itself. -/
def loadPaths : Option (List String) → List String
  | none => []
  | some l => l

/-- `cursor.execute('UPDATE messages SET attachmentPaths=? WHERE id=?')`. -/
def dbUpdatePaths (message_id : Nat) (v : Option (List String)) (db : List Row) : List Row :=
  db.map (fun r => if r.id == message_id then { r with attachmentPaths := v } else r)

/-- The `try` block of `process_attachment_response` (lines 208-253); an
error carries the state at the raise point (`'.' in attachment_id`
raises `TypeError` when the attachment id is `None`). -/
def process_attachment_response_body (fts : Faults) (ge : String → Option String)
    (attachment_dir : String) (message : Frame) (request_id : String) (s : ProcState) :
    Except (PyErr × ProcState) ProcState :=
  match dictLookup request_id s.pending with
  | none => .ok s
  | some pending_info =>
    let s := { s with pending := dictErase request_id s.pending }
    let message_id := pending_info.message_id
    match message.result with
    | none => .ok s
    | some result =>
      match result.data with
      | none => .ok s
      | some attachment_data_base64 =>
        let content_type := result.contentType.getD "application/octet-stream"
        match pending_info.attachment_id with
        | none => .error (.typeError, s)
        | some attachment_id =>
          let file_name := derive_file_name ge attachment_id content_type
          let file_path := pathJoin attachment_dir file_name
          let s := { s with files := dictInsert file_path attachment_data_base64 s.files }
          if fts.selectFails then .error (.storeError, s)
          else
            match dbFind message_id s.db with
            | none => .ok s
            | some row =>
              let attachmentPaths := loadPaths row.attachmentPaths ++ [file_path]
              if fts.updateFails then .error (.storeError, s)
              else .ok { s with db := dbUpdatePaths message_id (some attachmentPaths) s.db }

/-- `process_attachment_response`: the body with its `except Exception`
handler (lines 255-256), which logs and returns normally. -/
def process_attachment_response (fts : Faults) (ge : String → Option String)
    (attachment_dir : String) (message : Frame) (request_id : String) (s : ProcState) :
    ProcState :=
  match process_attachment_response_body fts ge attachment_dir message request_id s with
  | .ok s' => s'
  | .error (_, s') => s'

/-! ## The dispatch loop (`main`, lines 112-120) -/

/-- How the loop dispatched one decoded frame. -/
inductive Dispatch where
  | notification
  | response
  | unrecognized
  deriving DecidableEq, Repr

/-- The classification the loop actually performs (lines 112-120):
`message.get('method') == 'receive'`, then `elif 'id' in message`,
else an unknown-type warning. -/
def codeClassify (f : Frame) : Dispatch :=
  if f.method == some "receive" then .notification
  else if f.id?.isSome then .response
  else .unrecognized

/-- The classification rule as written in the design document (Frame
Decoder, section 4.1).  Modelled from the spec: "a frame with a `method`
field is a Notification; a frame lacking `method` but containing `id` is
a Response; anything else is Unrecognized." -/
def specClassify (f : Frame) : Dispatch :=
  if f.method.isSome then .notification
  else if f.id?.isSome then .response
  else .unrecognized

/-- One iteration of the read loop after a successful JSON decode
(lines 112-120): dispatch the frame to the matching processor.  In the
response branch the source reads `request_id = message.get('id')`; the
`.getD ""` is never exercised because that branch requires the key to be
present. -/
def mainStep (fts : Faults) (ge : String → Option String) (clock : Nat → Nat)
    (attachment_dir : String) (f : Frame) (s : ProcState) : ProcState :=
  match codeClassify f with
  | .notification => process_incoming_message fts clock f s
  | .response => process_attachment_response fts ge attachment_dir f (f.id?.getD "") s
  | .unrecognized => s

/-- Folding the loop over a list of decoded frames. -/
def runFrames (fts : Faults) (ge : String → Option String) (clock : Nat → Nat)
    (attachment_dir : String) (fs : List Frame) (s : ProcState) : ProcState :=
  fs.foldl (fun s f => mainStep fts ge clock attachment_dir f s) s

/-! ## Observations used to state the properties -/

/-- The attachment-path list currently recorded for message `M`
(the list the serialized `attachmentPaths` column loads to; `[]` when
the row does not exist). -/
def pathsOf (M : Nat) (db : List Row) : List String :=
  match dbFind M db with
  | none => []
  | some r => loadPaths r.attachmentPaths

/-- The request frames the ingestion loop is specified to write for an
attachment list, starting at clock call `t0`: one `getAttachment` frame
per attachment, in order, with request id `str(clock-ms) ++
str(attachment id)` and params addressed by attachment id and group id. -/
def requestFrames (clock : Nat → Nat) (t0 : Nat) (gid : Option String) :
    List Attachment → List Request
  | [] => []
  | a :: rest =>
    { attachmentId := a.id, groupId := gid, id := toString (clock t0) ++ pyStr a.id }
      :: requestFrames clock (t0 + 1) gid rest

/-- The correlation-table registrations the ingestion loop is specified
to perform for an attachment list: one entry per attachment, keyed by
the generated request id, holding the owning message id and the
attachment id. -/
def requestEntries (clock : Nat → Nat) (t0 : Nat) (mid : Nat) :
    List Attachment → List (String × PendingInfo)
  | [] => []
  | a :: rest =>
    (toString (clock t0) ++ pyStr a.id, ⟨mid, a.id⟩)
      :: requestEntries clock (t0 + 1) mid rest

/-- Whether processing one response frame from state `s` successfully
resolves an attachment, and for which message and file path: the
request id must match an outstanding entry, the frame must carry
`result` with `data`, the entry's attachment id must be a string, the
two store operations must not fail, and the owning row must exist. -/
def stepResolved (fts : Faults) (ge : String → Option String) (attachment_dir : String)
    (message : Frame) (request_id : String) (s : ProcState) : Option (Nat × String) :=
  match dictLookup request_id s.pending with
  | none => none
  | some pending_info =>
    match message.result with
    | none => none
    | some result =>
      match result.data with
      | none => none
      | some _ =>
        match pending_info.attachment_id with
        | none => none
        | some attachment_id =>
          if fts.selectFails then none
          else
            match dbFind pending_info.message_id s.db with
            | none => none
            | some _ =>
              if fts.updateFails then none
              else
                some (pending_info.message_id,
                  pathJoin attachment_dir (derive_file_name ge attachment_id
                    (result.contentType.getD "application/octet-stream")))

/-- The path a single response step appends to message `M`'s
attachment-path list (at most one). -/
def stepAdded (fts : Faults) (ge : String → Option String) (attachment_dir : String)
    (M : Nat) (message : Frame) (request_id : String) (s : ProcState) : List String :=
  match stepResolved fts ge attachment_dir message request_id s with
  | some (M', p) => if M' == M then [p] else []
  | none => []

/-- Processing a list of response frames in arrival order (each frame's
`request_id` is its `id` member, as extracted by the loop). -/
def processResponses (fts : Faults) (ge : String → Option String) (attachment_dir : String)
    (rs : List Frame) (s : ProcState) : ProcState :=
  rs.foldl (fun s f => process_attachment_response fts ge attachment_dir f (f.id?.getD "") s) s

/-- The file paths successfully resolved for message `M` over a list of
response frames: the responses that match an outstanding request of `M`
and carry a decodable payload each contribute their derived file path,
in processing order; all others contribute nothing. -/
def resolvedList (fts : Faults) (ge : String → Option String) (attachment_dir : String)
    (M : Nat) : List Frame → ProcState → List String
  | [], _ => []
  | f :: rest, s =>
    stepAdded fts ge attachment_dir M f (f.id?.getD "") s
      ++ resolvedList fts ge attachment_dir M rest
          (process_attachment_response fts ge attachment_dir f (f.id?.getD "") s)

/-! ## Concrete fixtures used by the witnesses and counterexamples -/

/-- The initial loop state: empty correlation table, empty `messages`
table (first autoincrement id 1), no files, nothing sent. -/
def s0 : ProcState := ⟨[], [], 1, [], [], 0⟩

/-- No store faults injected. -/
def noFaults : Faults := ⟨false, false, false⟩

/-- The INSERT of the message row raises. -/
def fInsFail : Faults := ⟨true, false, false⟩

/-- The SELECT of the attachment-path column raises. -/
def fSelFail : Faults := ⟨false, true, false⟩

/-- A concrete extension table for the examples:
`mimetypes.guess_extension` on the three content types exercised. -/
def ge0 : String → Option String := fun ct =>
  if ct = "image/png" then some ".png"
  else if ct = "text/plain" then some ".txt"
  else if ct = "application/octet-stream" then some ".bin"
  else none

/-- A clock advancing one millisecond per call. -/
def natClock : Nat → Nat := fun n => n

/-- A clock frozen at millisecond 5 (two calls in the same millisecond). -/
def frozenClock : Nat → Nat := fun _ => 5

/-- A group data message with text and one attachment. -/
def dm0 : DataMessage :=
  { message := some "hello", attachments := [⟨some "a1"⟩],
    groupInfo := some ⟨some "G1", some "Team"⟩, quote := none }

/-- A concrete envelope. -/
def env0 : Envelope :=
  { source := some "+1555", sourceName := some "Alice", timestamp := some 42,
    dataMessage := some dm0 }

/-- A `receive` notification frame carrying `env0`. -/
def fRecv : Frame :=
  { method := some "receive", id? := none, params := some ⟨some env0⟩, result := none }

/-- A receive notification whose envelope carries no `dataMessage`. -/
def fReceipt : Frame :=
  { method := some "receive", id? := none,
    params := some ⟨some { env0 with dataMessage := none }⟩, result := none }

/-- A frame carrying a non-`receive` method together with an `id`. -/
def fFoo : Frame :=
  { method := some "foo", id? := some "77", params := none, result := none }

/-- A frame with neither `method` nor `id`. -/
def fBare : Frame :=
  { method := none, id? := none, params := none, result := none }

/-- The response frame answering the request issued for `fRecv` under
`natClock` (request id `"0a1"`), with a payload. -/
def fResp : Frame :=
  { method := none, id? := some "0a1", params := none,
    result := some ⟨some "QQ==", some "text/plain"⟩ }

/-- A group message carrying the same attachment id twice. -/
def dmDup : DataMessage :=
  { message := none, attachments := [⟨some "x.png"⟩, ⟨some "x.png"⟩],
    groupInfo := some ⟨some "G1", some "Team"⟩, quote := none }

/-- The notification frame carrying `dmDup`. -/
def fDup : Frame :=
  { method := some "receive", id? := none,
    params := some ⟨some { env0 with dataMessage := some dmDup }⟩, result := none }

/-- State after ingesting `fDup` from `s0`: one row (id 1) and two
outstanding requests `"0x.png"` and `"1x.png"`. -/
def sd1 : ProcState := mainStep noFaults ge0 natClock "attachments" fDup s0

/-- Successful response to the first duplicate-id request. -/
def rDup1 : Frame :=
  { method := none, id? := some "0x.png", params := none,
    result := some ⟨some "AA==", some "image/png"⟩ }

/-- Successful response to the second duplicate-id request. -/
def rDup2 : Frame :=
  { method := none, id? := some "1x.png", params := none,
    result := some ⟨some "AB==", some "image/png"⟩ }

/-- State after both duplicate-id responses have been processed. -/
def sd3 : ProcState := runFrames noFaults ge0 natClock "attachments" [rDup1, rDup2] sd1

/-- A group message with one attachment of id `"a"`. -/
def dmA : DataMessage :=
  { message := some "m", attachments := [⟨some "a"⟩],
    groupInfo := some ⟨some "G1", some "Team"⟩, quote := none }

/-- The notification frame carrying `dmA`. -/
def fA : Frame :=
  { method := some "receive", id? := none,
    params := some ⟨some { env0 with dataMessage := some dmA }⟩, result := none }

/-- State after ingesting `fA` once at frozen millisecond 5. -/
def sc1 : ProcState := mainStep noFaults ge0 frozenClock "attachments" fA s0

/-- State after ingesting `fA` a second time in the same millisecond:
the generated request id collides with the outstanding one. -/
def sc2 : ProcState := mainStep noFaults ge0 frozenClock "attachments" fA sc1

/-- A state with one outstanding request `"r1"` for message 1 and
attachment id `"abc123"`, and the owning row present. -/
def sPend : ProcState :=
  ⟨[("r1", ⟨1, some "abc123"⟩)],
   [{ id := 1, source := none, sourceName := none, timestamp := none, message := some "hi",
      groupId := some "G1", groupName := some "Team", attachmentPaths := some [],
      attachmentDescriptions := "", processedAt := none, quoteId := none,
      quoteAuthor := none, quoteText := none }],
   2, [], [], 0⟩

/-- A response for `"r1"` with payload and declared content type `image/png`. -/
def fRespPng : Frame :=
  { method := none, id? := some "r1", params := none,
    result := some ⟨some "ZGF0YQ==", some "image/png"⟩ }

/-- A response for `"r1"` with payload and no `contentType` key. -/
def fRespNoCT : Frame :=
  { method := none, id? := some "r1", params := none,
    result := some ⟨some "ZGF0YQ==", none⟩ }

/-! ## Helper lemmas: dictionary operations -/

/-- Key membership agrees with the `in` test. -/
theorem dictContains_iff (k : String) (l : List (String × α)) :
    dictContains k l = true ↔ k ∈ dictKeys l := by
  simp [dictContains, dictKeys, List.any_eq_true]

/-- Assigning an already-present key leaves the key list unchanged. -/
theorem dictKeys_insert_of_contains {k : String} {l : List (String × α)} (v : α)
    (h : dictContains k l = true) : dictKeys (dictInsert k v l) = dictKeys l := by
  simp only [dictInsert, h, if_true, dictKeys, List.map_map]
  apply List.map_congr_left
  intro kv _
  by_cases hk : kv.1 = k
  · simp [Function.comp, hk]
  · simp [Function.comp, hk]

/-- Assigning a fresh key appends it to the key list. -/
theorem dictKeys_insert_of_not_contains {k : String} {l : List (String × α)} (v : α)
    (h : dictContains k l = false) : dictKeys (dictInsert k v l) = dictKeys l ++ [k] := by
  simp [dictInsert, h, dictKeys]

/-- Dict assignment preserves distinctness of keys. -/
theorem nodup_dictKeys_insert {k : String} {l : List (String × α)} (v : α)
    (h : (dictKeys l).Nodup) : (dictKeys (dictInsert k v l)).Nodup := by
  cases hc : dictContains k l
  · rw [dictKeys_insert_of_not_contains v hc]
    refine List.Nodup.append h (List.nodup_singleton k) ?_
    intro a ha hb
    rcases List.mem_singleton.mp hb with rfl
    have : dictContains a l = true := (dictContains_iff a l).mpr ha
    rw [this] at hc
    exact Bool.noConfusion hc
  · rw [dictKeys_insert_of_contains v hc]
    exact h

/-- Dict removal preserves distinctness of keys. -/
theorem nodup_dictKeys_erase {l : List (String × α)} (k : String)
    (h : (dictKeys l).Nodup) : (dictKeys (dictErase k l)).Nodup := by
  refine List.Nodup.sublist ?_ h
  exact List.Sublist.map _ (List.filter_sublist l)

/-- After removing a key, looking it up fails. -/
theorem dictLookup_erase_self (k : String) (l : List (String × α)) :
    dictLookup k (dictErase k l) = none := by
  simp only [dictLookup, dictErase, Option.map_eq_none']
  rw [List.find?_eq_none]
  intro kv hm
  have := (List.mem_filter.mp hm).2
  simp only [bne_iff_ne, ne_eq] at this
  simp [this]

/-! ## Helper lemmas: the attachment resolver -/

/-- A response whose id matches no outstanding request changes nothing. -/
theorem resp_unknown {fts : Faults} {ge : String → Option String} {dir : String}
    {f : Frame} {rid : String} {s : ProcState}
    (h : dictLookup rid s.pending = none) :
    process_attachment_response fts ge dir f rid s = s := by
  simp [process_attachment_response, process_attachment_response_body, h]

/-- A response whose id matches an outstanding request leaves the
correlation table with exactly that entry removed, whatever the rest of
the frame contains and whatever faults occur. -/
theorem resp_pending_erase {fts : Faults} {ge : String → Option String} {dir : String}
    {f : Frame} {rid : String} {s : ProcState} {info : PendingInfo}
    (h : dictLookup rid s.pending = some info) :
    (process_attachment_response fts ge dir f rid s).pending = dictErase rid s.pending := by
  obtain ⟨fi, fsel, fup⟩ := fts
  obtain ⟨mid, aid⟩ := info
  simp only [process_attachment_response, process_attachment_response_body, h]
  cases f.result with
  | none => rfl
  | some r =>
    obtain ⟨rd, rct⟩ := r
    cases rd with
    | none => rfl
    | some d =>
      cases aid with
      | none => rfl
      | some aid =>
        cases fsel
        · cases dbFind mid s.db with
          | none => rfl
          | some row =>
            cases fup
            · rfl
            · rfl
        · rfl

/-- A matched response with payload data and a string attachment id
writes exactly one file, at the path derived from the attachment id and
the declared (or defaulted) content type, whatever the store does. -/
theorem resp_files_insert {fts : Faults} {ge : String → Option String} {dir : String}
    {f : Frame} {rid : String} {s : ProcState} {info : PendingInfo} {r : ResultPayload}
    {d aid : String}
    (h : dictLookup rid s.pending = some info) (hr : f.result = some r)
    (hd : r.data = some d) (ha : info.attachment_id = some aid) :
    (process_attachment_response fts ge dir f rid s).files
      = dictInsert
          (pathJoin dir (derive_file_name ge aid (r.contentType.getD "application/octet-stream")))
          d s.files := by
  obtain ⟨fi, fsel, fup⟩ := fts
  obtain ⟨mid, aidOpt⟩ := info
  obtain ⟨rd, rct⟩ := r
  cases ha
  cases hd
  simp only [process_attachment_response, process_attachment_response_body, h, hr]
  cases fsel
  · cases dbFind mid s.db with
    | none => rfl
    | some row =>
      cases fup
      · rfl
      · rfl
  · rfl

/-- Updating the `attachmentPaths` column does not change which row a
SELECT by id finds, only the column value of the row it updates. -/
theorem dbFind_dbUpdatePaths (M mid : Nat) (v : Option (List String)) (db : List Row) :
    dbFind M (dbUpdatePaths mid v db)
      = (dbFind M db).map
          (fun r => if r.id == mid then { r with attachmentPaths := v } else r) := by
  induction db with
  | nil => rfl
  | cons r rest ih =>
    have hid : ((if r.id == mid then { r with attachmentPaths := v } else r) : Row).id = r.id := by
      by_cases h : (r.id == mid) = true <;> simp [h]
    have hupd : dbUpdatePaths mid v (r :: rest)
        = (if r.id == mid then { r with attachmentPaths := v } else r) :: dbUpdatePaths mid v rest := rfl
    rw [hupd]
    cases hM : (r.id == M) with
    | true =>
      have h1 : (((if r.id == mid then { r with attachmentPaths := v } else r) : Row).id == M) = true := by
        rw [hid]; exact hM
      simp only [dbFind] at *
      rw [List.find?_cons_of_pos (p := fun x : Row => x.id == M) _ h1,
        List.find?_cons_of_pos (p := fun x : Row => x.id == M) _ hM]
      rfl
    | false =>
      have h1 : ¬ ((((if r.id == mid then { r with attachmentPaths := v } else r) : Row).id == M) = true) := by
        rw [hid, hM]; exact Bool.false_ne_true
      have h2 : ¬ ((r.id == M) = true) := by rw [hM]; exact Bool.false_ne_true
      simp only [dbFind] at *
      rw [List.find?_cons_of_neg (p := fun x : Row => x.id == M) _ h1,
        List.find?_cons_of_neg (p := fun x : Row => x.id == M) _ h2]
      exact ih

/-- Effect of the UPDATE on the loaded path list of any message. -/
theorem pathsOf_dbUpdatePaths (M mid : Nat) (v : Option (List String)) (db : List Row)
    (row : Row) (hdb : dbFind mid db = some row) :
    pathsOf M (dbUpdatePaths mid v db) = if mid == M then loadPaths v else pathsOf M db := by
  rw [pathsOf, dbFind_dbUpdatePaths M mid v db]
  cases hMm : (mid == M) with
  | true =>
    have hme : mid = M := by simpa using hMm
    subst hme
    rw [hdb]
    have hdb2 : List.find? (fun x : Row => x.id == mid) db = some row := hdb
    have hrow : (row.id == mid) = true := List.find?_some (p := fun x : Row => x.id == mid) hdb2
    have hrowe : row.id = mid := by simpa using hrow
    simp [hrowe]
  | false =>
    have hne : ¬ mid = M := by simpa using hMm
    cases hMf : dbFind M db with
    | none => simp [pathsOf, hMf]
    | some r2 =>
      have hMf2 : List.find? (fun x : Row => x.id == M) db = some r2 := hMf
      have hr2 : (r2.id == M) = true := List.find?_some (p := fun x : Row => x.id == M) hMf2
      have hr2e : r2.id = M := by simpa using hr2
      have hfne : (r2.id == mid) = false := by
        rw [hr2e]
        simp
        intro h
        exact hne h.symm
      have hfnee : ¬ r2.id = mid := by simpa using hfne
      simp [pathsOf, hMf, hfnee]

/-- One response step appends to a message's loaded path list exactly
the (at most one) path it successfully resolves for that message. -/
theorem resp_pathsOf_step (fts : Faults) (ge : String → Option String) (dir : String)
    (M : Nat) (f : Frame) (rid : String) (s : ProcState) :
    pathsOf M (process_attachment_response fts ge dir f rid s).db
      = pathsOf M s.db ++ stepAdded fts ge dir M f rid s := by
  cases hlook : dictLookup rid s.pending with
  | none =>
    rw [resp_unknown hlook]
    simp [stepAdded, stepResolved, hlook]
  | some info =>
    obtain ⟨fi, fsel, fup⟩ := fts
    obtain ⟨mid, aidOpt⟩ := info
    simp only [process_attachment_response, process_attachment_response_body,
      stepAdded, stepResolved, hlook]
    cases hres : f.result with
    | none => simp
    | some r =>
      obtain ⟨rd, rct⟩ := r
      cases rd with
      | none => simp
      | some d =>
        cases aidOpt with
        | none => simp
        | some aid =>
          cases fsel with
          | true => simp
          | false =>
            cases hdb : dbFind mid s.db with
            | none => simp
            | some row =>
              cases fup with
              | true => simp
              | false =>
                simp only [Bool.false_eq_true, if_false]
                rw [pathsOf_dbUpdatePaths M mid _ s.db row hdb]
                cases hMm : (mid == M) with
                | true =>
                  have hme : mid = M := by simpa using hMm
                  subst hme
                  simp [pathsOf, hdb, loadPaths]
                | false =>
                  simp

/-- Processing a list of responses appends to a message's loaded path
list exactly the paths resolved for it, in processing order. -/
theorem processResponses_pathsOf (fts : Faults) (ge : String → Option String) (dir : String)
    (M : Nat) (rs : List Frame) (s : ProcState) :
    pathsOf M (processResponses fts ge dir rs s).db
      = pathsOf M s.db ++ resolvedList fts ge dir M rs s := by
  induction rs generalizing s with
  | nil => simp [processResponses, resolvedList]
  | cons f rest ih =>
    have hstep : processResponses fts ge dir (f :: rest) s
        = processResponses fts ge dir rest
            (process_attachment_response fts ge dir f (f.id?.getD "") s) := rfl
    rw [hstep, ih, resp_pathsOf_step, resolvedList, List.append_assoc]

/-! ## Helper lemmas: the message ingestor -/

/-- The attachment loop only writes requests, registers pending entries
and advances the clock: the store, files and autoincrement counter are
untouched, the frames written and the entries registered are exactly one
per attachment in order, with the generated request identifiers. -/
theorem sendRequests_spec (clock : Nat → Nat) (gid : Option String) (mid : Nat) :
    ∀ (atts : List Attachment) (s : ProcState),
      (sendRequests clock gid mid atts s).db = s.db
      ∧ (sendRequests clock gid mid atts s).nextId = s.nextId
      ∧ (sendRequests clock gid mid atts s).files = s.files
      ∧ (sendRequests clock gid mid atts s).sent = s.sent ++ requestFrames clock s.tick gid atts
      ∧ (sendRequests clock gid mid atts s).pending
          = (requestEntries clock s.tick mid atts).foldl (fun p kv => dictInsert kv.1 kv.2 p) s.pending
      ∧ (sendRequests clock gid mid atts s).tick = s.tick + atts.length := by
  intro atts
  induction atts with
  | nil =>
    intro s
    simp [sendRequests, requestFrames, requestEntries]
  | cons a rest ih =>
    intro s
    obtain ⟨h1, h2, h3, h4, h5, h6⟩ := ih
      { s with
        sent := s.sent ++ [⟨a.id, gid, toString (clock s.tick) ++ pyStr a.id⟩]
        pending := dictInsert (toString (clock s.tick) ++ pyStr a.id) ⟨mid, a.id⟩ s.pending
        tick := s.tick + 1 }
    refine ⟨h1, h2, h3, ?_, ?_, ?_⟩
    · rw [show sendRequests clock gid mid (a :: rest) s
          = sendRequests clock gid mid rest
              { s with
                sent := s.sent ++ [⟨a.id, gid, toString (clock s.tick) ++ pyStr a.id⟩]
                pending := dictInsert (toString (clock s.tick) ++ pyStr a.id) ⟨mid, a.id⟩ s.pending
                tick := s.tick + 1 } from rfl]
      rw [h4]
      simp [requestFrames]
    · rw [show sendRequests clock gid mid (a :: rest) s
          = sendRequests clock gid mid rest
              { s with
                sent := s.sent ++ [⟨a.id, gid, toString (clock s.tick) ++ pyStr a.id⟩]
                pending := dictInsert (toString (clock s.tick) ++ pyStr a.id) ⟨mid, a.id⟩ s.pending
                tick := s.tick + 1 } from rfl]
      rw [h5]
      simp [requestEntries]
    · rw [show sendRequests clock gid mid (a :: rest) s
          = sendRequests clock gid mid rest
              { s with
                sent := s.sent ++ [⟨a.id, gid, toString (clock s.tick) ++ pyStr a.id⟩]
                pending := dictInsert (toString (clock s.tick) ++ pyStr a.id) ⟨mid, a.id⟩ s.pending
                tick := s.tick + 1 } from rfl]
      rw [h6]
      simp [Nat.add_comm, Nat.add_assoc, Nat.add_left_comm]

/-- On a valid group message with a working store, ingestion inserts the
row built from the extracted fields and then runs the attachment loop on
the updated state. -/
theorem ingest_valid {fts : Faults} {clock : Nat → Nat} {f : Frame} {s : ProcState}
    {dm : DataMessage} {gi : GroupInfo}
    (hdm : (envOf f).dataMessage = some dm) (hgi : dm.groupInfo = some gi)
    (hc : (strFalsy dm.message && dm.attachments.isEmpty) = false)
    (hins : fts.insertFails = false) :
    process_incoming_message fts clock f s
      = sendRequests clock gi.groupId s.nextId dm.attachments
          { s with
            db := s.db ++
              [{ id := s.nextId
                 source := (envOf f).source
                 sourceName := (envOf f).sourceName
                 timestamp := (envOf f).timestamp
                 message := dm.message
                 groupId := gi.groupId
                 groupName := gi.groupName
                 attachmentPaths := some []
                 attachmentDescriptions := ""
                 processedAt := none
                 quoteId := dm.quote.bind Quote.id
                 quoteAuthor := dm.quote.bind Quote.author
                 quoteText := dm.quote.bind Quote.text }]
            nextId := s.nextId + 1 } := by
  simp only [process_incoming_message, process_incoming_message_body, hdm, hgi, hc, hins,
    Bool.false_eq_true, if_false]

/-- A notification with no content payload is ignored. -/
theorem ingest_no_dataMessage {fts : Faults} {clock : Nat → Nat} {f : Frame} {s : ProcState}
    (hdm : (envOf f).dataMessage = none) :
    process_incoming_message fts clock f s = s := by
  simp [process_incoming_message, process_incoming_message_body, hdm]

/-- A non-group message is ignored. -/
theorem ingest_no_group {fts : Faults} {clock : Nat → Nat} {f : Frame} {s : ProcState}
    {dm : DataMessage} (hdm : (envOf f).dataMessage = some dm) (hgi : dm.groupInfo = none) :
    process_incoming_message fts clock f s = s := by
  simp [process_incoming_message, process_incoming_message_body, hdm, hgi]

/-- A content-free group message (falsy text, no attachments) is ignored. -/
theorem ingest_empty {fts : Faults} {clock : Nat → Nat} {f : Frame} {s : ProcState}
    {dm : DataMessage} {gi : GroupInfo}
    (hdm : (envOf f).dataMessage = some dm) (hgi : dm.groupInfo = some gi)
    (hc : (strFalsy dm.message && dm.attachments.isEmpty) = true) :
    process_incoming_message fts clock f s = s := by
  simp [process_incoming_message, process_incoming_message_body, hdm, hgi, hc]

/-- When the INSERT raises, ingestion is caught by the handler and
returns the state unchanged, for every frame. -/
theorem ingest_insert_fails {fts : Faults} {clock : Nat → Nat} (f : Frame) (s : ProcState)
    (hins : fts.insertFails = true) :
    process_incoming_message fts clock f s = s := by
  cases hdm : (envOf f).dataMessage with
  | none => exact ingest_no_dataMessage hdm
  | some dm =>
    cases hgi : dm.groupInfo with
    | none => exact ingest_no_group hdm hgi
    | some gi =>
      cases hc : (strFalsy dm.message && dm.attachments.isEmpty) with
      | true => exact ingest_empty hdm hgi hc
      | false =>
        simp [process_incoming_message, process_incoming_message_body, hdm, hgi, hc, hins]

/-! ## Helper lemmas: distinctness of correlation-table keys -/

/-- The attachment loop preserves distinctness of table keys. -/
theorem nodup_sendRequests (clock : Nat → Nat) (gid : Option String) (mid : Nat) :
    ∀ (atts : List Attachment) (s : ProcState),
      (dictKeys s.pending).Nodup → (dictKeys (sendRequests clock gid mid atts s).pending).Nodup := by
  intro atts
  induction atts with
  | nil => intro s h; exact h
  | cons a rest ih =>
    intro s h
    exact ih _ (nodup_dictKeys_insert _ h)

/-- Ingestion preserves distinctness of table keys. -/
theorem nodup_ingest (fts : Faults) (clock : Nat → Nat) (f : Frame) (s : ProcState)
    (h : (dictKeys s.pending).Nodup) :
    (dictKeys (process_incoming_message fts clock f s).pending).Nodup := by
  cases hdm : (envOf f).dataMessage with
  | none => rw [ingest_no_dataMessage hdm]; exact h
  | some dm =>
    cases hgi : dm.groupInfo with
    | none => rw [ingest_no_group hdm hgi]; exact h
    | some gi =>
      cases hc : (strFalsy dm.message && dm.attachments.isEmpty) with
      | true => rw [ingest_empty hdm hgi hc]; exact h
      | false =>
        cases hins : fts.insertFails with
        | true => rw [ingest_insert_fails f s hins]; exact h
        | false =>
          rw [ingest_valid hdm hgi hc hins]
          exact nodup_sendRequests clock gi.groupId s.nextId dm.attachments _ h

/-- Attachment resolution preserves distinctness of table keys. -/
theorem nodup_resp (fts : Faults) (ge : String → Option String) (dir : String)
    (f : Frame) (rid : String) (s : ProcState) (h : (dictKeys s.pending).Nodup) :
    (dictKeys (process_attachment_response fts ge dir f rid s).pending).Nodup := by
  cases hlook : dictLookup rid s.pending with
  | none => rw [resp_unknown hlook]; exact h
  | some info =>
    rw [resp_pending_erase hlook]
    exact nodup_dictKeys_erase rid h

/-! ## C1 -/

/-- C1: for every inbound receive notification whose envelope carries a
(truthy) `dataMessage` with a group descriptor and non-empty message
text or at least one attachment, `process_incoming_message` inserts
exactly one Message record whose fields equal the values extracted from
the notification and whose attachment-path list is the serialized empty
list (`some []`, i.e. `json.dumps([])`, not NULL); for every
notification lacking a `dataMessage`, lacking a group descriptor, or
with falsy text and no attachments, no record is inserted (the state is
returned unchanged). -/
theorem c1_record_per_notification (fts : Faults) (clock : Nat → Nat) (f : Frame)
    (s : ProcState) :
    (∀ dm gi, (envOf f).dataMessage = some dm → dm.groupInfo = some gi →
      (strFalsy dm.message && dm.attachments.isEmpty) = false → fts.insertFails = false →
      (process_incoming_message fts clock f s).db
        = s.db ++
            [{ id := s.nextId
               source := (envOf f).source
               sourceName := (envOf f).sourceName
               timestamp := (envOf f).timestamp
               message := dm.message
               groupId := gi.groupId
               groupName := gi.groupName
               attachmentPaths := some []
               attachmentDescriptions := ""
               processedAt := none
               quoteId := dm.quote.bind Quote.id
               quoteAuthor := dm.quote.bind Quote.author
               quoteText := dm.quote.bind Quote.text }])
    ∧ ((envOf f).dataMessage = none → process_incoming_message fts clock f s = s)
    ∧ (∀ dm, (envOf f).dataMessage = some dm → dm.groupInfo = none →
        process_incoming_message fts clock f s = s)
    ∧ (∀ dm gi, (envOf f).dataMessage = some dm → dm.groupInfo = some gi →
        (strFalsy dm.message && dm.attachments.isEmpty) = true →
        process_incoming_message fts clock f s = s) := by
  refine ⟨?_, ?_, ?_, ?_⟩
  · intro dm gi hdm hgi hc hins
    rw [ingest_valid hdm hgi hc hins]
    exact (sendRequests_spec clock gi.groupId s.nextId dm.attachments _).1
  · intro hdm
    exact ingest_no_dataMessage hdm
  · intro dm hdm hgi
    exact ingest_no_group hdm hgi
  · intro dm gi hdm hgi hc
    exact ingest_empty hdm hgi hc

/-- Witness for C1 at the concrete notification `fRecv` (valid group
message) and the receipt `fReceipt` (no content payload). -/
theorem c1_record_per_notification_witness :
    (process_incoming_message noFaults natClock fRecv s0).db
      = s0.db ++
          [{ id := 1, source := some "+1555", sourceName := some "Alice",
             timestamp := some 42, message := some "hello", groupId := some "G1",
             groupName := some "Team", attachmentPaths := some [],
             attachmentDescriptions := "", processedAt := none, quoteId := none,
             quoteAuthor := none, quoteText := none }]
    ∧ process_incoming_message noFaults natClock fReceipt s0 = s0 :=
  ⟨(c1_record_per_notification noFaults natClock fRecv s0).1 dm0
      ⟨some "G1", some "Team"⟩ rfl rfl rfl rfl,
   (c1_record_per_notification noFaults natClock fReceipt s0).2.1 rfl⟩

/-! ## C2 -/

/-- C2 counterexample: the frame `{"method":"foo","id":"77"}` carries a
`method` field, so the Frame Decoder rule classifies it as a
Notification, but the loop (which tests `method == 'receive'` first and
`'id' in message` second) dispatches it as a Response. -/
theorem c2_counterexample :
    codeClassify fFoo = Dispatch.response ∧ specClassify fFoo = Dispatch.notification :=
  ⟨rfl, rfl⟩

/-- C2 (amended): the loop dispatches a frame whose `method` equals
`"receive"` to the message ingestor; a frame whose `method` is anything
else (or absent) but which contains `id` to the attachment resolver;
and a frame with neither to a warning that discards it. -/
theorem c2_dispatch (fts : Faults) (ge : String → Option String) (clock : Nat → Nat)
    (dir : String) (f : Frame) (s : ProcState) :
    (f.method = some "receive" →
      mainStep fts ge clock dir f s = process_incoming_message fts clock f s)
    ∧ (f.method ≠ some "receive" → ∀ rid, f.id? = some rid →
        mainStep fts ge clock dir f s = process_attachment_response fts ge dir f rid s)
    ∧ (f.method ≠ some "receive" → f.id? = none → mainStep fts ge clock dir f s = s) := by
  refine ⟨?_, ?_, ?_⟩
  · intro h
    simp [mainStep, codeClassify, h]
  · intro h rid hid
    simp [mainStep, codeClassify, h, hid]
  · intro h hid
    simp [mainStep, codeClassify, h, hid]

/-- Witness for C2's amended dispatch rule on the three concrete frames
`fRecv` (receive notification), `fFoo` (other method with id) and
`fBare` (neither member). -/
theorem c2_dispatch_witness :
    mainStep noFaults ge0 natClock "attachments" fRecv s0
      = process_incoming_message noFaults natClock fRecv s0
    ∧ mainStep noFaults ge0 natClock "attachments" fFoo s0
      = process_attachment_response noFaults ge0 "attachments" fFoo "77" s0
    ∧ mainStep noFaults ge0 natClock "attachments" fBare s0 = s0 :=
  ⟨(c2_dispatch noFaults ge0 natClock "attachments" fRecv s0).1 rfl,
   (c2_dispatch noFaults ge0 natClock "attachments" fFoo s0).2.1 (by decide) "77" rfl,
   (c2_dispatch noFaults ge0 natClock "attachments" fBare s0).2.2 (by decide) rfl⟩

/-! ## C3 -/

/-- C3 counterexample: at the concrete notification `fRecv` with a
failing INSERT, the store operation inside `process_incoming_message`
raises (the body evaluates to an error), yet the loop step returns
normally with the state unchanged — the failure is caught by the
per-message handler, it does not propagate and terminate the process. -/
theorem c3_counterexample :
    process_incoming_message_body fInsFail natClock fRecv s0
      = Except.error (PyErr.storeError, s0)
    ∧ mainStep fInsFail ge0 natClock "attachments" fRecv s0 = s0 :=
  ⟨rfl, rfl⟩

/-- C3 (amended): a Persistence Store failure during ingestion or
attachment resolution is caught by the enclosing `except Exception`
handler, logged, and the processor returns normally (ingestion with no
effects at all; resolution with the entry already consumed and the file
already written), so the loop continues with the next frame. -/
theorem c3_store_error_caught (fts : Faults) (ge : String → Option String)
    (clock : Nat → Nat) (dir : String) :
    (∀ (f : Frame) (s : ProcState), fts.insertFails = true →
      process_incoming_message fts clock f s = s)
    ∧ (∀ (f : Frame) (rid : String) (s : ProcState) (info : PendingInfo)
        (r : ResultPayload) (d aid : String),
        fts.selectFails = true → dictLookup rid s.pending = some info →
        f.result = some r → r.data = some d → info.attachment_id = some aid →
        process_attachment_response fts ge dir f rid s
          = { s with
              pending := dictErase rid s.pending
              files := dictInsert
                (pathJoin dir (derive_file_name ge aid (r.contentType.getD "application/octet-stream")))
                d s.files }) := by
  constructor
  · intro f s h
    exact ingest_insert_fails f s h
  · intro f rid s info r d aid hsel hlook hres hd ha
    obtain ⟨fi, fsel, fup⟩ := fts
    obtain ⟨mid, aidOpt⟩ := info
    obtain ⟨rd, rct⟩ := r
    cases ha
    cases hd
    cases hsel
    simp [process_attachment_response, process_attachment_response_body, hlook, hres]

/-- Witness for C3's amended recovery behavior: a failing INSERT on
`fRecv` leaves the state unchanged, and a failing SELECT on the matched
response `fRespPng` still pops the entry and writes the file. -/
theorem c3_store_error_caught_witness :
    process_incoming_message fInsFail natClock fRecv s0 = s0
    ∧ process_attachment_response fSelFail ge0 "attachments" fRespPng "r1" sPend
      = { sPend with
          pending := dictErase "r1" sPend.pending
          files := dictInsert
            (pathJoin "attachments"
              (derive_file_name ge0 "abc123" ((some "image/png").getD "application/octet-stream")))
            "ZGF0YQ==" sPend.files } :=
  ⟨(c3_store_error_caught fInsFail ge0 natClock "attachments").1 fRecv s0 rfl,
   (c3_store_error_caught fSelFail ge0 natClock "attachments").2 fRespPng "r1" sPend
     ⟨1, some "abc123"⟩ ⟨some "ZGF0YQ==", some "image/png"⟩ "ZGF0YQ==" "abc123"
     rfl rfl rfl rfl rfl⟩

/-! ## C4 -/

/-- C4 counterexample: two notifications each carrying attachment id
`"a"`, ingested in the same millisecond (frozen clock), generate the
same request identifier `"5a"`; registering the second fetch request
silently replaces the outstanding entry of message 1 with one for
message 2, even though two requests were written. -/
theorem c4_counterexample :
    dictLookup "5a" sc1.pending = some ⟨1, some "a"⟩
    ∧ dictLookup "5a" sc2.pending = some ⟨2, some "a"⟩
    ∧ sc2.pending.length = 1
    ∧ sc2.sent.length = 2 :=
  ⟨rfl, rfl, rfl, rfl⟩

/-- C4 (amended): the correlation table is a keyed map, so its request
identifiers are pairwise distinct at every reachable state (every loop
step preserves distinctness of keys); however a registration whose
generated identifier (millisecond timestamp concatenated with the
attachment id) collides with an outstanding key silently replaces that
entry rather than adding a second one. -/
theorem c4_nodup_keys (fts : Faults) (ge : String → Option String) (clock : Nat → Nat)
    (dir : String) (f : Frame) (s : ProcState)
    (h : (dictKeys s.pending).Nodup) :
    (dictKeys (mainStep fts ge clock dir f s).pending).Nodup := by
  cases hcl : codeClassify f with
  | notification =>
    simpa [mainStep, hcl] using nodup_ingest fts clock f s h
  | response =>
    simpa [mainStep, hcl] using nodup_resp fts ge dir f (f.id?.getD "") s h
  | unrecognized =>
    simpa [mainStep, hcl] using h

/-- Witness for C4's key-distinctness preservation at the concrete
notification `fRecv` from the empty table. -/
theorem c4_nodup_keys_witness :
    (dictKeys (mainStep noFaults ge0 natClock "attachments" fRecv s0).pending).Nodup :=
  c4_nodup_keys noFaults ge0 natClock "attachments" fRecv s0 (by simp [s0, dictKeys])

/-! ## C5 -/

/-- C5 counterexample: the message ingested from `fDup` carries the
attachment id `"x.png"` twice; after both fetch responses succeed, its
attachment-path list holds the same derived path twice — the list is
not duplicate-free. -/
theorem c5_counterexample :
    pathsOf 1 sd3.db = ["attachments/x.png", "attachments/x.png"]
    ∧ ¬ (pathsOf 1 sd3.db).Nodup :=
  ⟨rfl, by decide⟩

/-- C5 (amended): starting from an empty attachment-path list, after a
list of responses is processed the message's loaded path list is
exactly the successfully resolved paths in order — its length equals
the number of successfully resolved attachments (responses lacking
result or data, or matching no outstanding request, contribute nothing
and are not retried) — and it is duplicate-free whenever the resolved
file paths are pairwise distinct (which fails when two attachments of
the same message derive the same file name, e.g. duplicated attachment
ids). -/
theorem c5_paths_length (fts : Faults) (ge : String → Option String) (dir : String)
    (M : Nat) (rs : List Frame) (s : ProcState)
    (h : pathsOf M s.db = []) :
    (pathsOf M (processResponses fts ge dir rs s).db).length
      = (resolvedList fts ge dir M rs s).length
    ∧ ((resolvedList fts ge dir M rs s).Nodup →
        (pathsOf M (processResponses fts ge dir rs s).db).Nodup) := by
  have heq := processResponses_pathsOf fts ge dir M rs s
  rw [h, List.nil_append] at heq
  rw [heq]
  exact ⟨rfl, fun hn => hn⟩

/-- Witness for C5's amended property on the duplicate-id scenario. -/
theorem c5_paths_length_witness :
    (pathsOf 1 (processResponses noFaults ge0 "attachments" [rDup1, rDup2] sd1).db).length
      = (resolvedList noFaults ge0 "attachments" 1 [rDup1, rDup2] sd1).length
    ∧ ((resolvedList noFaults ge0 "attachments" 1 [rDup1, rDup2] sd1).Nodup →
        (pathsOf 1 (processResponses noFaults ge0 "attachments" [rDup1, rDup2] sd1).db).Nodup) :=
  c5_paths_length noFaults ge0 "attachments" 1 [rDup1, rDup2] sd1 rfl

/-! ## C6 -/

/-- C6: for every matched response with payload data and declared
content type, the file written is named by the attachment identifier
verbatim when it contains a `.`, and otherwise by the identifier with
the extension guessed from the declared content type appended, an
unknown content type yielding the empty extension; in particular id
`"photo.png"` gives `"photo.png"`, id `"abc123"` with `image/png`
(guessed `.png`) gives `"abc123.png"`, and an unknown content type
gives `"abc123"`. -/
theorem c6_file_name_derivation (ge : String → Option String) (fts : Faults) (dir : String)
    (f : Frame) (rid : String) (s : ProcState) (info : PendingInfo) (r : ResultPayload)
    (d aid ct : String)
    (hlook : dictLookup rid s.pending = some info) (ha : info.attachment_id = some aid)
    (hres : f.result = some r) (hd : r.data = some d) (hct : r.contentType = some ct) :
    (process_attachment_response fts ge dir f rid s).files
      = dictInsert (pathJoin dir (derive_file_name ge aid ct)) d s.files
    ∧ (aid.data.contains '.' = true → derive_file_name ge aid ct = aid)
    ∧ (aid.data.contains '.' = false →
        derive_file_name ge aid ct = aid ++ get_extension_from_content_type ge ct)
    ∧ (ge ct = none → get_extension_from_content_type ge ct = "")
    ∧ (∀ ct2, derive_file_name ge "photo.png" ct2 = "photo.png")
    ∧ (ge "image/png" = some ".png" → derive_file_name ge "abc123" "image/png" = "abc123.png")
    ∧ (∀ ct3, ge ct3 = none → derive_file_name ge "abc123" ct3 = "abc123") := by
  refine ⟨?_, ?_, ?_, ?_, ?_, ?_, ?_⟩
  · have h := @resp_files_insert fts ge dir f rid s info r d aid hlook hres hd ha
    rw [hct] at h
    exact h
  · intro hdot
    simp only [derive_file_name]
    rw [hdot]
    simp
  · intro hdot
    simp only [derive_file_name]
    rw [hdot]
    simp
  · intro hnone
    simp [get_extension_from_content_type, hnone]
  · intro ct2
    simp [derive_file_name]
  · intro hpng
    simp [derive_file_name, get_extension_from_content_type, hpng]
  · intro ct3 hnone
    simp [derive_file_name, get_extension_from_content_type, hnone]

/-- Witness for C6 at the concrete matched response `fRespPng` for the
pending request of attachment `"abc123"` with content type `image/png`. -/
theorem c6_file_name_derivation_witness :
    (process_attachment_response noFaults ge0 "attachments" fRespPng "r1" sPend).files
      = dictInsert (pathJoin "attachments" (derive_file_name ge0 "abc123" "image/png"))
          "ZGF0YQ==" sPend.files
    ∧ derive_file_name ge0 "abc123" "image/png" = "abc123.png"
    ∧ derive_file_name ge0 "photo.png" "text/plain" = "photo.png"
    ∧ derive_file_name ge0 "abc123" "application/x-unknown" = "abc123" :=
  ⟨(c6_file_name_derivation ge0 noFaults "attachments" fRespPng "r1" sPend
      ⟨1, some "abc123"⟩ ⟨some "ZGF0YQ==", some "image/png"⟩ "ZGF0YQ==" "abc123" "image/png"
      rfl rfl rfl rfl rfl).1,
   (c6_file_name_derivation ge0 noFaults "attachments" fRespPng "r1" sPend
      ⟨1, some "abc123"⟩ ⟨some "ZGF0YQ==", some "image/png"⟩ "ZGF0YQ==" "abc123" "image/png"
      rfl rfl rfl rfl rfl).2.2.2.2.2.1 rfl,
   (c6_file_name_derivation ge0 noFaults "attachments" fRespPng "r1" sPend
      ⟨1, some "abc123"⟩ ⟨some "ZGF0YQ==", some "image/png"⟩ "ZGF0YQ==" "abc123" "image/png"
      rfl rfl rfl rfl rfl).2.2.2.2.1 "text/plain",
   (c6_file_name_derivation ge0 noFaults "attachments" fRespPng "r1" sPend
      ⟨1, some "abc123"⟩ ⟨some "ZGF0YQ==", some "image/png"⟩ "ZGF0YQ==" "abc123" "image/png"
      rfl rfl rfl rfl rfl).2.2.2.2.2.2 "application/x-unknown" rfl⟩

/-! ## C7 -/

/-- C7: a response whose id matches a pending request removes that entry
from the correlation table exactly once, before the result is examined
(the table ends up as the erase of the entry whatever the result
contains and whatever the store does); reprocessing the same response
afterwards finds no entry and has no effect. -/
theorem c7_one_shot_consumption (fts : Faults) (ge : String → Option String) (dir : String)
    (f : Frame) (rid : String) (s : ProcState) (info : PendingInfo)
    (hlook : dictLookup rid s.pending = some info) :
    (process_attachment_response fts ge dir f rid s).pending = dictErase rid s.pending
    ∧ process_attachment_response fts ge dir f rid
        (process_attachment_response fts ge dir f rid s)
      = process_attachment_response fts ge dir f rid s := by
  refine ⟨resp_pending_erase hlook, ?_⟩
  apply resp_unknown
  rw [resp_pending_erase hlook]
  exact dictLookup_erase_self rid s.pending

/-- Witness for C7 at the concrete matched response `fRespPng`. -/
theorem c7_one_shot_consumption_witness :
    (process_attachment_response noFaults ge0 "attachments" fRespPng "r1" sPend).pending
      = dictErase "r1" sPend.pending
    ∧ process_attachment_response noFaults ge0 "attachments" fRespPng "r1"
        (process_attachment_response noFaults ge0 "attachments" fRespPng "r1" sPend)
      = process_attachment_response noFaults ge0 "attachments" fRespPng "r1" sPend :=
  c7_one_shot_consumption noFaults ge0 "attachments" fRespPng "r1" sPend
    ⟨1, some "abc123"⟩ rfl

/-! ## C8 -/

/-- C8: a response frame whose id is not in the correlation table is
only logged: `process_attachment_response` returns the state entirely
unchanged — correlation table, message table, files and transport. -/
theorem c8_unknown_id_no_effect (fts : Faults) (ge : String → Option String) (dir : String)
    (f : Frame) (rid : String) (s : ProcState)
    (h : dictLookup rid s.pending = none) :
    process_attachment_response fts ge dir f rid s = s :=
  resp_unknown h

/-- Witness for C8: a response with the unknown id `"zz"` from the empty
table leaves the state untouched. -/
theorem c8_unknown_id_no_effect_witness :
    process_attachment_response noFaults ge0 "attachments" fResp "zz" s0 = s0 :=
  c8_unknown_id_no_effect noFaults ge0 "attachments" fResp "zz" s0 rfl

/-! ## C9 -/

/-- C9: for every persisted notification, one fetch request per
attachment is written to the transport, in the order the attachments
appear, each with request identifier `str(ms-time) ++ str(attachment
id)` and params addressed by attachment id and group id, and each is
registered in the correlation table under that identifier with the
owning message identifier (the id the inserted row received). -/
theorem c9_fetch_requests (fts : Faults) (clock : Nat → Nat) (f : Frame) (s : ProcState)
    (dm : DataMessage) (gi : GroupInfo)
    (hdm : (envOf f).dataMessage = some dm) (hgi : dm.groupInfo = some gi)
    (hc : (strFalsy dm.message && dm.attachments.isEmpty) = false)
    (hins : fts.insertFails = false) :
    (process_incoming_message fts clock f s).sent
      = s.sent ++ requestFrames clock s.tick gi.groupId dm.attachments
    ∧ (process_incoming_message fts clock f s).pending
      = (requestEntries clock s.tick s.nextId dm.attachments).foldl
          (fun p kv => dictInsert kv.1 kv.2 p) s.pending := by
  rw [ingest_valid hdm hgi hc hins]
  obtain ⟨h1, h2, h3, h4, h5, h6⟩ :=
    sendRequests_spec clock gi.groupId s.nextId dm.attachments
      { s with
        db := s.db ++
          [{ id := s.nextId
             source := (envOf f).source
             sourceName := (envOf f).sourceName
             timestamp := (envOf f).timestamp
             message := dm.message
             groupId := gi.groupId
             groupName := gi.groupName
             attachmentPaths := some []
             attachmentDescriptions := ""
             processedAt := none
             quoteId := dm.quote.bind Quote.id
             quoteAuthor := dm.quote.bind Quote.author
             quoteText := dm.quote.bind Quote.text }]
        nextId := s.nextId + 1 }
  exact ⟨h4, h5⟩

/-- Witness for C9 at the concrete notification `fRecv` from `s0`: one
request for attachment `"a1"` with request id `"0a1"`, registered for
message 1. -/
theorem c9_fetch_requests_witness :
    (process_incoming_message noFaults natClock fRecv s0).sent
      = s0.sent ++ requestFrames natClock s0.tick (some "G1") [⟨some "a1"⟩]
    ∧ (process_incoming_message noFaults natClock fRecv s0).pending
      = (requestEntries natClock s0.tick 1 [⟨some "a1"⟩]).foldl
          (fun p kv => dictInsert kv.1 kv.2 p) s0.pending :=
  c9_fetch_requests noFaults natClock fRecv s0 dm0 ⟨some "G1", some "Team"⟩
    rfl rfl rfl rfl

/-! ## C10 -/

/-- C10: a matched response whose result carries payload data but omits
`contentType` is processed with `application/octet-stream` substituted
as the declared content type, so an attachment id without a `.` gets
the extension guessed for `application/octet-stream` appended. -/
theorem c10_default_content_type (fts : Faults) (ge : String → Option String) (dir : String)
    (f : Frame) (rid : String) (s : ProcState) (info : PendingInfo) (r : ResultPayload)
    (d aid : String)
    (hlook : dictLookup rid s.pending = some info) (ha : info.attachment_id = some aid)
    (hres : f.result = some r) (hd : r.data = some d) (hct : r.contentType = none)
    (hdot : aid.data.contains '.' = false) :
    (process_attachment_response fts ge dir f rid s).files
      = dictInsert
          (pathJoin dir (aid ++ get_extension_from_content_type ge "application/octet-stream"))
          d s.files := by
  have h := @resp_files_insert fts ge dir f rid s info r d aid hlook hres hd ha
  rw [hct] at h
  rw [h]
  simp only [Option.getD_none, derive_file_name]
  rw [hdot]
  simp

/-- Witness for C10 at the concrete matched response `fRespNoCT` (no
`contentType` key): the file is written as `abc123.bin` under `ge0`. -/
theorem c10_default_content_type_witness :
    (process_attachment_response noFaults ge0 "attachments" fRespNoCT "r1" sPend).files
      = dictInsert
          (pathJoin "attachments" ("abc123" ++ get_extension_from_content_type ge0 "application/octet-stream"))
          "ZGF0YQ==" sPend.files :=
  c10_default_content_type noFaults ge0 "attachments" fRespNoCT "r1" sPend
    ⟨1, some "abc123"⟩ ⟨some "ZGF0YQ==", none⟩ "ZGF0YQ==" "abc123"
    rfl rfl rfl rfl rfl rfl
